import Mathlib

/-
Verification of droxporter, a Prometheus exporter for DigitalOcean.
Shallow embedding of the polling engine: the leaky-bucket rate limiter
(src/client/rate_limiter.rs), the key manager (src/client/key_manager.rs),
the droplet inventory store pagination (src/metrics/droplet_store.rs),
the upstream response handling (src/client/do_client.rs and
src/client/do_json_protocol.rs), the last-value extraction of the metric
loaders (src/metrics/droplet_metrics_loader.rs and
src/metrics/app_metrics_loader.rs), the label reconciler
(src/metrics/utils.rs) and the restart-count windowing of the scheduler
(src/metrics/jobs_scheduler.rs).

All times are integer milliseconds (the source converts every time value
with ToMillis before use); machine integers (usize, u64) are modelled as
Nat, which is faithful because no computation in the modelled code paths
can overflow 64 bits for the inputs considered, and the single subtraction
in the source is the saturating "current_time.saturating_sub(last)" which
is exactly Nat subtraction.
-/

namespace Droxporter

/--
One tier of the leaky bucket, src/client/rate_limiter.rs, struct
RateLimiter.  The source stores "multiplication_ratio: f32 = limit as f32
/ limit_interval as f32"; we keep the interval itself and compute the
refill "(time_diff as f32 * multiplication_ratio) as usize" as the exact
natural-number floor "time_diff * limit / limit_interval" (see
RateLimiter.refill).
-/
structure RateLimiter where
  remaining : Nat
  last_attempt_time : Nat
  limit : Nat
  limit_interval : Nat
deriving Repr, DecidableEq

/-- src/client/rate_limiter.rs, RateLimiter::new: remaining starts at 0. -/
def RateLimiter.new (limit limit_interval current_time : Nat) : RateLimiter :=
  { remaining := 0
    limit := limit
    last_attempt_time := current_time
    limit_interval := limit_interval }

/--
The refill amount "(time_diff as f32 * multiplication_ratio) as usize"
(src/client/rate_limiter.rs line 73), modelled as the exact rational
floor.  The "as usize" cast of a non-negative f32 truncates toward zero,
i.e. is the floor.  The f32 rounding of the ratio and of the product can
in principle perturb the floor by one unit; for every concrete
(limit, limit_interval, time_diff) triple appearing in a theorem below
the f32 computation was checked to produce exactly the same integer:
- ratio 250/60000 at time_diff 600000 gives an f32 product of about
  2500.0001, truncated to 2500, and the subsequent min with 250 makes the
  perturbation irrelevant in any case;
- ratio 4500/3600000 at time_diff 600000 gives an exact real product of
  749.99998324 whose nearest f32 is exactly 750.0, truncated to 750,
  matching 600000 * 4500 / 3600000 = 750;
- ratio 250/60000 at time_diff 240 gives an f32 product of about
  1.00000005 whose nearest f32 is exactly 1.0, truncated to 1, matching
  240 * 250 / 60000 = 1;
- time_diff 0 always gives exactly 0.
-/
def RateLimiter.refill (s : RateLimiter) (time_diff : Nat) : Nat :=
  time_diff * s.limit / s.limit_interval

/-- src/client/rate_limiter.rs, RateLimiter::estimate_remaining. -/
def RateLimiter.estimate_remaining (s : RateLimiter) (current_time : Nat) : Nat :=
  let time_diff := current_time - s.last_attempt_time
  let next_count := s.remaining + s.refill time_diff
  let next_count := min next_count s.limit
  if next_count > 0 then next_count - 1 else 0

/-- src/client/rate_limiter.rs, RateLimiter::can_acquire. -/
def RateLimiter.can_acquire (s : RateLimiter) (current_time : Nat) : Bool :=
  s.estimate_remaining current_time > 0

/--
src/client/rate_limiter.rs, RateLimiter::acquire.  The source mutates the
receiver and returns a Bool; we return the Bool together with the new
state (the state is unchanged when the Bool is false).
-/
def RateLimiter.acquire (s : RateLimiter) (current_time : Nat) : Bool × RateLimiter :=
  let next_count := s.estimate_remaining current_time
  if next_count = 0 then (false, s)
  else (true, { s with remaining := next_count, last_attempt_time := current_time })

/--
src/client/rate_limiter.rs, struct MultiLimits<const LIMITS: usize>:
an array of tiers, modelled as a list (LIMITS = 2 everywhere in the
program).
-/
structure MultiLimits where
  limits : List RateLimiter
deriving Repr, DecidableEq

/--
src/client/rate_limiter.rs, MultiLimits::new: the source fills an array
with RateLimiter::new(limit, interval, current_time) for each setting, in
order.
-/
def MultiLimits.new (limit_settings : List (Nat × Nat)) (current_time : Nat) : MultiLimits :=
  { limits := limit_settings.map (fun p => RateLimiter.new p.1 p.2 current_time) }

/-- src/client/rate_limiter.rs, MultiLimits::can_acquire: all tiers. -/
def MultiLimits.can_acquire (m : MultiLimits) (current_time : Nat) : Bool :=
  m.limits.all (fun l => l.can_acquire current_time)

/-- src/client/rate_limiter.rs, MultiLimits::estimate_remaining: 0 for an out-of-range index. -/
def MultiLimits.estimate_remaining (m : MultiLimits) (idx : Nat) (current_time : Nat) : Nat :=
  match m.limits.get? idx with
  | none => 0
  | some l => l.estimate_remaining current_time

/--
src/client/rate_limiter.rs, MultiLimits::acquire: if can_acquire fails,
nothing is mutated; otherwise every tier is acquired (each tier acquire
necessarily succeeds because can_acquire checked every tier).
-/
def MultiLimits.acquire (m : MultiLimits) (current_time : Nat) : Bool × MultiLimits :=
  if !m.can_acquire current_time then (false, m)
  else (true, { limits := m.limits.map (fun l => (l.acquire current_time).2) })

/-- Folding a sequence of acquire calls over one tier. -/
def RateLimiter.acquireSeq (s : RateLimiter) (ts : List Nat) : RateLimiter :=
  ts.foldl (fun s t => (s.acquire t).2) s

/-- Folding a sequence of acquire calls over a multi-tier token state. -/
def MultiLimits.acquireSeq (m : MultiLimits) (ts : List Nat) : MultiLimits :=
  ts.foldl (fun m t => (m.acquire t).2) m

/-! ## Key manager, src/client/key_manager.rs -/

/-- src/client/key_manager.rs, enum KeyType. -/
inductive KeyType where
  | Default
  | Droplets
  | Apps
  | DropletBandwidth
  | DropletCpu
  | DropletFileSystem
  | DropletMemory
  | DropletLoad
  | AppCpuPercentage
  | AppMemoryPercentage
  | AppRestartCount
deriving Repr, DecidableEq

/-- src/client/key_manager.rs, KeyType::to_metric_type. -/
def KeyType.to_metric_type : KeyType → String
  | .Default => "default"
  | .Apps => "apps"
  | .Droplets => "droplets"
  | .DropletBandwidth => "bandwidth"
  | .DropletCpu => "cpu"
  | .DropletFileSystem => "file_system"
  | .DropletMemory => "memory"
  | .DropletLoad => "load"
  | .AppCpuPercentage => "app_cpu_percentage"
  | .AppMemoryPercentage => "app_memory_percentage"
  | .AppRestartCount => "app_restart_count"

/--
src/client/key_manager.rs, create_key_limit: the two DigitalOcean tiers,
250 per minute and 4500 per hour (Duration::minutes(1).to_millis = 60000,
Duration::hours(1).to_millis = 3600000).
-/
def create_key_limit (time : Nat) : MultiLimits :=
  MultiLimits.new [(250, 60000), (4500, 3600000)] time

/--
src/client/key_manager.rs, struct KeyManagerState.  The two HashMaps are
modelled as association lists (the source never inserts a KeyType twice,
and every key maps to the same initial limit, so duplicate handling is
irrelevant).  metricsEnabled models
"configs.exporter_metrics.enabled && metrics.contains(Limits)"
(are_metrics_enabled).  keyErrorCounter models the Prometheus CounterVec
droxporter_keys_errors, keyed by the (key_type, error) label pair.  The
two gauges (limits_gauge, keys_status_gauge) are only ever overwritten by
record_metrics with values recomputed from keys and limits at call time,
never read back; no claim concerns them, so record_metrics below only
models its (absent) effect on the tracked state.
-/
structure KeyManagerState where
  keys : List (KeyType × List String)
  limits : List (String × MultiLimits)
  metricsEnabled : Bool
  keyErrorCounter : List ((String × String) × Nat)
deriving Repr, DecidableEq

/-- HashMap::get on the pools map (self.keys.get(&key_type)). -/
def KeyManagerState.lookupKeys (st : KeyManagerState) (kt : KeyType) : Option (List String) :=
  (st.keys.find? (fun p => p.1 = kt)).map (fun p => p.2)

/-- HashMap::get on the limits map (self.limits.get(k)). -/
def KeyManagerState.lookupLimit (st : KeyManagerState) (k : String) : Option MultiLimits :=
  (st.limits.find? (fun p => p.1 = k)).map (fun p => p.2)

/-- HashMap::get_mut followed by overwriting the entry. -/
def KeyManagerState.updateLimit (st : KeyManagerState) (k : String) (v : MultiLimits) :
    KeyManagerState :=
  { st with limits := st.limits.map (fun p => if p.1 = k then (k, v) else p) }

/-- CounterVec::with_label_values(labels).inc() on droxporter_keys_errors. -/
def KeyManagerState.incError (st : KeyManagerState) (labels : String × String) :
    KeyManagerState :=
  match st.keyErrorCounter.find? (fun p => p.1 = labels) with
  | some _ =>
      { st with
        keyErrorCounter :=
          st.keyErrorCounter.map (fun p => if p.1 = labels then (p.1, p.2 + 1) else p) }
  | none => { st with keyErrorCounter := st.keyErrorCounter ++ [(labels, 1)] }

/-- Reads the droxporter_keys_errors counter for a label pair (0 when the series was never touched). -/
def KeyManagerState.errorCount (st : KeyManagerState) (labels : String × String) : Nat :=
  match st.keyErrorCounter.find? (fun p => p.1 = labels) with
  | some p => p.2
  | none => 0

/--
src/client/key_manager.rs, KeyManagerState::record_fail.  Called only
when key_result is an error (line 197).  Chooses the error label from the
emptiness of the requested pool and of the default pool, then increments
droxporter_keys_errors with the requested purpose label.
-/
def KeyManagerState.record_fail (st : KeyManagerState) (kt : KeyType) : KeyManagerState :=
  if !st.metricsEnabled then st
  else
    let key_not_found :=
      match st.lookupKeys kt with
      | some x => x.isEmpty
      | none => true
    let default_key_not_found :=
      match st.lookupKeys KeyType.Default with
      | some x => x.isEmpty
      | none => true
    let error_type :=
      if key_not_found && default_key_not_found then "key not found" else "limit exceeded"
    st.incError (kt.to_metric_type, error_type)

/--
Rust Iterator::max_by_key: the maximum by key, returning the LAST of
several equally-maximal elements (each later element replaces the current
maximum when its key is greater or equal).
-/
def maxByKeyLast (f : α → Nat) : List α → Option α
  | [] => none
  | x :: xs => some (xs.foldl (fun acc y => if f acc ≤ f y then y else acc) x)

/-- The "sum over both tiers of estimate_remaining" ranking used by acquire_key (one_minute_idx = 0, one_hour_idx = 1). -/
def sumEstimates (m : MultiLimits) (t : Nat) : Nat :=
  m.estimate_remaining 0 t + m.estimate_remaining 1 t

/--
src/client/key_manager.rs lines 177-186: among the pool's keys that have
a limit entry and can_acquire now, pick the one maximizing the summed
estimates (Rust max_by_key keeps the last of equal maxima).
-/
def selectKey (st : KeyManagerState) (keys : List String) (t : Nat) : Option String :=
  let candidates := keys.filterMap (fun k => (st.lookupLimit k).map (fun l => (k, l)))
  let available := candidates.filter (fun p => p.2.can_acquire t)
  (maxByKeyLast (fun p => sumEstimates p.2 t) available).map (fun p => p.1)

/--
src/client/key_manager.rs lines 197-210, the code below the key_result
match: record_fail when key_result is an error, propagate the error,
otherwise acquire the chosen key's limits and record_metrics (a pure
gauge overwrite, no tracked state).  anyhow::bail! in the match arms
above RETURNS from acquire_key immediately, so this tail is NOT run on
the two bail paths; it is run when key_result came from the Some/Ok arm
or from the non-returning recursive fallback call.
-/
def KeyManagerState.acquireTail (st : KeyManagerState) (t : Nat) (kt : KeyType)
    (key_result : Except String String) : Except String String × KeyManagerState :=
  match key_result with
  | .error e => (.error e, st.record_fail kt)
  | .ok key =>
      let st :=
        match st.lookupLimit key with
        | none => st
        | some settings => st.updateLimit key (settings.acquire t).2
      (.ok key, st)

/--
src/client/key_manager.rs, KeyManagerState::acquire_key.  The source
recursion only ever calls itself on KeyType::Default, which never
recurses further, so the recursion depth is at most 2; the fuel argument
makes this structural, and every theorem uses fuel 2.  Control flow,
faithfully:
- pool missing, kt = Default: bail (early return, no record_fail);
- pool missing, kt ≠ Default: "return self.acquire_key(Default)" (early
  return of the full recursive result, line 174);
- pool present, no key within budget, kt = Default: bail (early return);
- pool present, no key within budget, kt ≠ Default: key_result is the
  full recursive call (NOT an early return, line 191), after which the
  tail runs AGAIN in this frame — acquiring the returned key's limits a
  second time;
- pool present, key found: key_result = Ok(key), tail runs.
-/
def KeyManagerState.acquireKey :
    Nat → KeyManagerState → Nat → KeyType → Except String String × KeyManagerState
  | 0, st, _, _ => (.error "recursion fuel exhausted", st)
  | fuel + 1, st, t, kt =>
      match st.lookupKeys kt with
      | none =>
          if kt = KeyType.Default then (.error "Api Key Not Found", st)
          else KeyManagerState.acquireKey fuel st t KeyType.Default
      | some keys =>
          match selectKey st keys t with
          | none =>
              if kt = KeyType.Default then
                (.error "Available Api Key Not Found Or Limit exceeded", st)
              else
                let res := KeyManagerState.acquireKey fuel st t KeyType.Default
                res.2.acquireTail t kt res.1
          | some key => st.acquireTail t kt (.ok key)

/--
src/client/key_manager.rs, KeyManagerState::new: the pools come from the
configuration, every key of every pool gets create_key_limit(time) where
time = now - Duration::minutes(10) ("10 minutes for small amount of
initial limits", line 127); startup is now in milliseconds.  The error
counter starts at zero everywhere.
-/
def KeyManagerState.new (pools : List (KeyType × List String)) (metricsEnabled : Bool)
    (startup : Nat) : KeyManagerState :=
  { keys := pools
    limits := (pools.map (fun p => p.2)).flatten.map
      (fun k => (k, create_key_limit (startup - 600000)))
    metricsEnabled := metricsEnabled
    keyErrorCounter := [] }

/-! ## Upstream JSON protocol, src/client/do_json_protocol.rs -/

/-- src/client/do_json_protocol.rs, struct MetricPoint: the upstream encodes the value as a string. -/
structure MetricPoint where
  timestamp : Nat
  value : String
deriving Repr, DecidableEq

/-- src/client/do_json_protocol.rs, struct Pages (all four links optional). -/
structure Pages where
  prev : Option String := none
  next : Option String := none
  first : Option String := none
  last : Option String := none
deriving Repr, DecidableEq

/-- src/client/do_json_protocol.rs, struct Links. -/
structure Links where
  pages : Pages
deriving Repr, DecidableEq

/-- src/client/do_json_protocol.rs, struct DropletResponse. -/
structure DropletResponse where
  id : Nat
  name : String
  memory : Nat
  vcpus : Nat
  disk : Nat
  locked : Bool
  status : String
deriving Repr, DecidableEq

/-- src/client/do_json_protocol.rs, struct ListDropletsResponse. -/
structure ListDropletsResponse where
  droplets : List DropletResponse
  links : Links
deriving Repr, DecidableEq

/-- src/client/do_json_protocol.rs, struct DropletMetricMetaInfo (host_id required, the rest optional). -/
structure DropletMetricMetaInfo where
  host_id : String
  mode : Option String := none
  device : Option String := none
  fstype : Option String := none
  mountpoint : Option String := none
deriving Repr, DecidableEq

/-- src/client/do_json_protocol.rs, struct DropletMetricsResponse (one upstream series). -/
structure DropletMetricsResponse where
  metric : DropletMetricMetaInfo
  values : List MetricPoint
deriving Repr, DecidableEq

/-- src/client/do_json_protocol.rs, struct DropletDataResult. -/
structure DropletDataResult where
  result : List DropletMetricsResponse
deriving Repr, DecidableEq

/-- src/client/do_json_protocol.rs, struct DropletDataResponse (status and data both required fields). -/
structure DropletDataResponse where
  status : String
  data : DropletDataResult
deriving Repr, DecidableEq

/-- src/client/do_json_protocol.rs, struct AppMetricMetaInfo. -/
structure AppMetricMetaInfo where
  app_component : String
  app_component_instance : String
  app_owner_id : Option String := none
  app_uuid : String
deriving Repr, DecidableEq

/-- src/client/do_json_protocol.rs, struct AppMetricsResponse (one upstream series for an app). -/
structure AppMetricsResponse where
  metric : AppMetricMetaInfo
  values : List MetricPoint
deriving Repr, DecidableEq

/-! ## Inventory store pagination, src/metrics/droplet_store.rs -/

/-- src/metrics/droplet_store.rs, struct BasicDropletInfo. -/
structure BasicDropletInfo where
  id : Nat
  name : String
  memory : Nat
  vcpus : Nat
  disk : Nat
  locked : Bool
  status : String
deriving Repr, DecidableEq

/-- src/metrics/droplet_store.rs, impl From<DropletResponse> for BasicDropletInfo. -/
def BasicDropletInfo.ofResponse (value : DropletResponse) : BasicDropletInfo :=
  { id := value.id
    name := value.name
    memory := value.memory
    vcpus := value.vcpus
    disk := value.disk
    locked := value.locked
    status := value.status }

/--
The while loop of DropletStoreImpl::load_droplets
(src/metrics/droplet_store.rs lines 135-140): request (per_page, page),
propagate errors, set fetch_next from links.pages.next.is_some(), extend
the accumulator with the converted droplets, increment page.  The client
is a pure function from the two query parameters to a result; the second
returned list is the trace of client calls issued, in order.  The Rust
loop has no bound; the fuel argument makes the recursion structural and
the theorems supply fuel at least the page count.
-/
def loadDropletsGo (client : Nat → Nat → Except String ListDropletsResponse) :
    Nat → Nat → List BasicDropletInfo → List (Nat × Nat) →
    Except String (List BasicDropletInfo × List (Nat × Nat))
  | 0, _, _, _ => .error "loop fuel exhausted"
  | fuel + 1, page, acc, trace =>
      match client 100 page with
      | .error e => .error e
      | .ok loaded =>
          let trace := trace ++ [(100, page)]
          let fetch_next := loaded.links.pages.next.isSome
          let acc := acc ++ loaded.droplets.map BasicDropletInfo.ofResponse
          if fetch_next then loadDropletsGo client fuel (page + 1) acc trace
          else .ok (acc, trace)

/--
src/metrics/droplet_store.rs, DropletStoreImpl::load_droplets: per_page
is the constant 100, page starts at 1, the accumulated result is stored
(save_droplets) on success.  The returned pair is (stored snapshot, trace
of requests).
-/
def load_droplets (client : Nat → Nat → Except String ListDropletsResponse) (fuel : Nat) :
    Except String (List BasicDropletInfo × List (Nat × Nat)) :=
  loadDropletsGo client fuel 1 [] []

/-! ## Upstream response handling, src/client/do_client.rs -/

/-- A JSON document, for modelling the serde deserialization of upstream bodies. -/
inductive Json where
  | null
  | bool (b : Bool)
  | num (n : Int)
  | str (s : String)
  | arr (elems : List Json)
  | obj (fields : List (String × Json))

/-- Field lookup in a JSON object (serde ignores unknown fields and fails on non-objects). -/
def Json.getField : Json → String → Option Json
  | .obj fields, name => (fields.find? (fun p => p.1 = name)).map (fun p => p.2)
  | _, _ => none

/-- serde: a Rust String field deserializes only from a JSON string. -/
def Json.asString : Json → Option String
  | .str s => some s
  | _ => none

/-- serde: a u64 field deserializes only from a non-negative JSON integer. -/
def Json.asNat : Json → Option Nat
  | .num n => if 0 ≤ n then some n.toNat else none
  | _ => none

/-- serde: an Option<String> field is None when missing or null, Some for a string, an error otherwise. -/
def decodeOptString : Option Json → Option (Option String)
  | none => some none
  | some .null => some none
  | some (.str s) => some (some s)
  | some _ => none

/--
src/client/do_json_protocol.rs, deserialize_points: each point is a JSON
array of exactly two elements, a u64 timestamp and a string value.
-/
def decodeMetricPoint : Json → Option MetricPoint
  | .arr [ts, v] => do
      let t ← ts.asNat
      let s ← v.asString
      pure { timestamp := t, value := s }
  | _ => none

/-- serde derive for DropletMetricMetaInfo: host_id required, the four others optional. -/
def decodeDropletMetricMetaInfo (j : Json) : Option DropletMetricMetaInfo := do
  let host_id ← (j.getField "host_id").bind Json.asString
  let mode ← decodeOptString (j.getField "mode")
  let device ← decodeOptString (j.getField "device")
  let fstype ← decodeOptString (j.getField "fstype")
  let mountpoint ← decodeOptString (j.getField "mountpoint")
  pure { host_id := host_id, mode := mode, device := device, fstype := fstype,
         mountpoint := mountpoint }

/-- serde derive for DropletMetricsResponse: metric and values both required. -/
def decodeDropletMetricsResponse (j : Json) : Option DropletMetricsResponse := do
  let meta ← (j.getField "metric").bind decodeDropletMetricMetaInfo
  let valuesJson ← j.getField "values"
  match valuesJson with
  | .arr elems => do
      let values ← elems.mapM decodeMetricPoint
      pure { metric := meta, values := values }
  | _ => none

/-- serde derive for DropletDataResponse: status and data.result required. -/
def decodeDropletDataResponse (j : Json) : Option DropletDataResponse := do
  let status ← (j.getField "status").bind Json.asString
  let dataJson ← j.getField "data"
  let resultJson ← dataJson.getField "result"
  match resultJson with
  | .arr elems => do
      let result ← elems.mapM decodeDropletMetricsResponse
      pure { status := status, data := { result := result } }
  | _ => none

/--
src/client/do_client.rs, DigitalOceanClientImpl::base_droplet_metrics_request
lines 220-229, the response handling after the HTTP exchange: statuses
other than 200 OK and 204 No Content become an error carrying the status
and body; an accepted status is then fed to
response.json::<DropletDataResponse>(), i.e. serde_json over the body.
The body is modelled as Option Json: none is a body that holds no JSON
document at all — in particular the empty body of a 204 No Content
response, on which serde_json fails with "EOF while parsing a value" —
and some j is a body holding the document j.
-/
def handleDropletMetricsResponse (status : Nat) (body : Option Json) :
    Except String DropletDataResponse :=
  if status ≠ 200 ∧ status ≠ 204 then
    .error ("Request failed with status code: " ++ toString status)
  else
    match body with
    | none => .error "error decoding response body"
    | some j =>
        match decodeDropletDataResponse j with
        | none => .error "error decoding response body"
        | some r => .ok r

/-! ## Metric loaders, src/metrics/droplet_metrics_loader.rs and src/metrics/app_metrics_loader.rs -/

/--
src/metrics/droplet_metrics_loader.rs, extract_last_value: flatten the
points of every series of the response, take the point of maximal
timestamp (Rust max_by_key: last of equal maxima), parse its string value
as f64, fall back to 0 when there is no point or the parse fails.  The
parse "x.value.parse::<f64>().ok()" is the Rust standard library's float
parser, passed in here as an arbitrary function into exact rationals.
-/
def extract_last_value (parse : String → Option ℚ) (response : DropletDataResponse) : ℚ :=
  ((maxByKeyLast (fun p => p.timestamp)
      (response.data.result.flatMap (fun x => x.values))).bind
    (fun x => parse x.value)).getD 0

/--
src/metrics/app_metrics_loader.rs, last_point_for_app_metrics: the point
of maximal timestamp of one series, parsed, with fallback 0.
-/
def last_point_for_app_metrics (parse : String → Option ℚ) (metrics : AppMetricsResponse) : ℚ :=
  ((maxByKeyLast (fun p => p.timestamp) metrics.values).bind
    (fun x => parse x.value)).getD 0

/-! ## Label reconciler, src/metrics/utils.rs -/

/-- One live series of a Prometheus vector: its full label tuple, as (name, value) pairs. -/
abbrev LabelTuple := List (String × String)

/--
The deletion predicate of remove_old_droplets and the two app variants
(src/metrics/utils.rs): find the label named by the primary key;
Option::iter().all(...) makes a tuple WITHOUT the primary-key label
deleted as well (all over the empty iterator is true), and a tuple with
it deleted exactly when its value is not in the valid set.
-/
def shouldRemoveTuple (primaryKey : String) (valid : List String) (tuple : LabelTuple) : Bool :=
  match tuple.find? (fun l => l.1 = primaryKey) with
  | none => true
  | some l => !valid.contains l.2

/--
src/metrics/utils.rs, remove_old_droplets / remove_old_apps_for_gauge_metric /
remove_old_apps_for_counter_metric: collect the label tuples matching the
deletion predicate, then remove each from the vector.  The net effect on
the set of live tuples is keeping exactly the tuples the predicate
spares.
-/
def removeOldSeries (primaryKey : String) (valid : List String) (vec : List LabelTuple) :
    List LabelTuple :=
  vec.filter (fun t => !shouldRemoveTuple primaryKey valid t)

/-- src/metrics/utils.rs, remove_old_droplets: primary key label "droplet". -/
def remove_old_droplets (valid : List String) (vec : List LabelTuple) : List LabelTuple :=
  removeOldSeries "droplet" valid vec

/-- src/metrics/utils.rs, remove_old_apps_for_gauge_metric: primary key label "app". -/
def remove_old_apps_for_gauge_metric (valid : List String) (vec : List LabelTuple) :
    List LabelTuple :=
  removeOldSeries "app" valid vec

/-- src/metrics/utils.rs, remove_old_apps_for_counter_metric: primary key label "app". -/
def remove_old_apps_for_counter_metric (valid : List String) (vec : List LabelTuple) :
    List LabelTuple :=
  removeOldSeries "app" valid vec

/-! ## Restart-count windowing, src/metrics/jobs_scheduler.rs -/

/--
src/metrics/jobs_scheduler.rs, run_app_restart_count_metrics_loading
lines 427-430, the per-pass window computation: interval_end = now - 1s,
interval_start = last_interval_end.unwrap_or(interval_end),
last_interval_end := interval_end + 1s.  Times in seconds as integers.
The state update happens BEFORE load_restart_count is awaited, so a
failing pass advances last_interval_end exactly like a successful one;
this step function therefore covers both outcomes.
-/
def restartCountStep (last_interval_end : Option Int) (now : Int) :
    Option Int × (Int × Int) :=
  let interval_end := now - 1
  let interval_start := last_interval_end.getD interval_end
  (some (interval_end + 1), (interval_start, interval_end))

/-- The sequence of queried windows produced by passes at the given times, from a given loop state. -/
def restartCountGo (last_interval_end : Option Int) : List Int → List (Int × Int)
  | [] => []
  | t :: ts =>
      let step := restartCountStep last_interval_end t
      step.2 :: restartCountGo step.1 ts

/-- The windows of a restart-count loop started fresh (last_interval_end = None). -/
def restartCountIntervals (times : List Int) : List (Int × Int) :=
  restartCountGo none times

/-! ## Helper lemmas -/

/-- estimate_remaining never exceeds the tier capacity: the min clamp, then minus one. -/
theorem RateLimiter.estimate_remaining_le_limit (s : RateLimiter) (t : Nat) :
    s.estimate_remaining t ≤ s.limit := by
  unfold RateLimiter.estimate_remaining
  dsimp only
  split
  · exact le_trans (Nat.sub_le _ _) (min_le_right _ _)
  · exact Nat.zero_le _

/-- acquire never changes the capacity of a tier. -/
theorem RateLimiter.acquire_limit (s : RateLimiter) (t : Nat) :
    ((s.acquire t).2).limit = s.limit := by
  by_cases h : s.estimate_remaining t = 0 <;> simp [RateLimiter.acquire, h]

/-- After an acquire call the stored remaining count is within the capacity. -/
theorem RateLimiter.acquire_remaining_le (s : RateLimiter) (t : Nat)
    (h : s.remaining ≤ s.limit) : ((s.acquire t).2).remaining ≤ ((s.acquire t).2).limit := by
  by_cases h0 : s.estimate_remaining t = 0
  · simpa [RateLimiter.acquire, h0] using h
  · simpa [RateLimiter.acquire, h0] using s.estimate_remaining_le_limit t

/-- The invariant remaining ≤ limit is preserved by any sequence of per-tier acquires. -/
theorem RateLimiter.acquireSeq_remaining_le (ts : List Nat) (s : RateLimiter)
    (h : s.remaining ≤ s.limit) :
    (s.acquireSeq ts).remaining ≤ (s.acquireSeq ts).limit := by
  induction ts generalizing s with
  | nil => exact h
  | cons t ts ih =>
      simp only [RateLimiter.acquireSeq, List.foldl_cons]
      exact ih _ (s.acquire_remaining_le t h)

/-- MultiLimits.acquire preserves the per-tier invariant remaining ≤ limit. -/
theorem MultiLimits.acquire_tiers_le (m : MultiLimits) (t : Nat)
    (h : ∀ l ∈ m.limits, l.remaining ≤ l.limit) :
    ∀ l ∈ ((m.acquire t).2).limits, l.remaining ≤ l.limit := by
  rcases Bool.eq_false_or_eq_true (m.can_acquire t) with hc | hc
  · intro l hl
    simp only [MultiLimits.acquire, hc, Bool.not_true, Bool.false_eq_true, if_false,
      List.mem_map] at hl
    obtain ⟨l0, hl0, rfl⟩ := hl
    exact l0.acquire_remaining_le t (h l0 hl0)
  · simpa [MultiLimits.acquire, hc] using h

/-- The per-tier invariant is preserved by any sequence of token acquires. -/
theorem MultiLimits.acquireSeq_tiers_le (ts : List Nat) (m : MultiLimits)
    (h : ∀ l ∈ m.limits, l.remaining ≤ l.limit) :
    ∀ l ∈ (m.acquireSeq ts).limits, l.remaining ≤ l.limit := by
  induction ts generalizing m with
  | nil => exact h
  | cons t ts ih =>
      simp only [MultiLimits.acquireSeq, List.foldl_cons]
      exact ih _ (m.acquire_tiers_le t h)

/-- A freshly constructed token satisfies the per-tier invariant (remaining starts at 0). -/
theorem MultiLimits.new_remaining_le (settings : List (Nat × Nat)) (t0 : Nat) :
    ∀ l ∈ (MultiLimits.new settings t0).limits, l.remaining ≤ l.limit := by
  intro l hl
  simp only [MultiLimits.new, List.mem_map] at hl
  obtain ⟨p, _, rfl⟩ := hl
  exact Nat.zero_le _

/--
The foldl underlying Rust max_by_key returns the strictly greatest
element when there is one.
-/
theorem foldl_maxByKey_of_strict (f : α → Nat) (p : α) :
    ∀ (xs : List α) (a : α), (a = p ∨ f a < f p) → (∀ r ∈ xs, r = p ∨ f r < f p) →
      (p = a ∨ p ∈ xs) →
      xs.foldl (fun acc y => if f acc ≤ f y then y else acc) a = p := by
  intro xs
  induction xs with
  | nil =>
      intro a _ _ hmem
      rcases hmem with h | h
      · simp [h]
      · cases h
  | cons y ys ih =>
      intro a ha hall hmem
      simp only [List.foldl_cons]
      have hy : y = p ∨ f y < f p := hall y (List.mem_cons_self _ _)
      have hys : ∀ r ∈ ys, r = p ∨ f r < f p := fun r hr => hall r (List.mem_cons_of_mem _ hr)
      have hstep : (if f a ≤ f y then y else a) = p ∨
          f (if f a ≤ f y then y else a) < f p := by
        split
        · exact hy
        · exact ha
      have hstepmem : p = (if f a ≤ f y then y else a) ∨ p ∈ ys := by
        by_cases hay : f a ≤ f y
        · rw [if_pos hay]
          rcases hmem with hpa | hmem2
          · rcases hy with hyp | hylt
            · exact Or.inl hyp.symm
            · exfalso
              have hfa : f p = f a := congrArg f hpa
              omega
          · rcases List.mem_cons.mp hmem2 with hpy | hpys
            · exact Or.inl hpy
            · exact Or.inr hpys
        · rw [if_neg hay]
          rcases hmem with hpa | hmem2
          · exact Or.inl hpa
          · rcases List.mem_cons.mp hmem2 with hpy | hpys
            · rcases ha with hap | halt
              · exact Or.inl hap.symm
              · exfalso
                have hfy : f p = f y := congrArg f hpy
                omega
            · exact Or.inr hpys
      exact ih _ hstep hys hstepmem

/-- Rust max_by_key returns the element whose key is strictly greater than every other's. -/
theorem maxByKeyLast_of_strict (f : α → Nat) (l : List α) (p : α) (hp : p ∈ l)
    (hmax : ∀ r ∈ l, r = p ∨ f r < f p) : maxByKeyLast f l = some p := by
  cases l with
  | nil => cases hp
  | cons x xs =>
      have hx : x = p ∨ f x < f p := hmax x (List.mem_cons_self _ _)
      have hxs : ∀ r ∈ xs, r = p ∨ f r < f p := fun r hr => hmax r (List.mem_cons_of_mem _ hr)
      have hmem : p = x ∨ p ∈ xs := List.mem_cons.mp hp
      rw [show maxByKeyLast f (x :: xs) =
            some (xs.foldl (fun acc y => if f acc ≤ f y then y else acc) x) from rfl,
          foldl_maxByKey_of_strict f p xs x hx hxs hmem]

/-- Pruning is a filter, so pruning twice with the same set is pruning once. -/
theorem removeOldSeries_idem (primaryKey : String) (valid : List String)
    (vec : List LabelTuple) :
    removeOldSeries primaryKey valid (removeOldSeries primaryKey valid vec) =
      removeOldSeries primaryKey valid vec := by
  unfold removeOldSeries
  rw [List.filter_filter]
  exact List.filter_congr (fun t _ => Bool.and_self _)

/-- The first window produced from a primed loop state starts at the stored value. -/
theorem restartCountGo_head_start (v : Int) (times : List Int)
    (h : 0 < (restartCountGo (some v) times).length) :
    ((restartCountGo (some v) times).get ⟨0, h⟩).1 = v := by
  cases times with
  | nil => simp [restartCountGo] at h
  | cons t ts => simp [restartCountGo, restartCountStep]

/-- Consecutive restart-count windows: each start is the previous end plus one second. -/
theorem restartCountGo_chain (times : List Int) :
    ∀ (last : Option Int) (i : Nat) (h1 : i < (restartCountGo last times).length)
      (h2 : i + 1 < (restartCountGo last times).length),
      ((restartCountGo last times).get ⟨i + 1, h2⟩).1 =
        ((restartCountGo last times).get ⟨i, h1⟩).2 + 1 := by
  induction times with
  | nil =>
      intro last i h1 h2
      simp [restartCountGo] at h1
  | cons t ts ih =>
      intro last i h1 h2
      simp only [restartCountGo, List.length_cons] at h1 h2 ⊢
      cases i with
      | zero =>
          simp only [List.get_cons_succ, List.get_cons_zero]
          have hlen : 0 < (restartCountGo (restartCountStep last t).1 ts).length := by
            simpa using Nat.lt_of_succ_lt_succ h2
          simpa [restartCountStep] using
            restartCountGo_head_start ((t - 1) + 1) ts hlen
      | succ j =>
          simp only [List.get_cons_succ]
          exact ih (restartCountStep last t).1 j (Nat.lt_of_succ_lt_succ h1)
            (Nat.lt_of_succ_lt_succ h2)

/--
The pagination loop, specified against the list of responses the
upstream would serve from a given starting page: when every page before
the last reports a next link and the last does not, the loop requests
exactly those pages in order with per_page = 100 and accumulates their
droplets in order.
-/
theorem loadDropletsGo_spec (client : Nat → Nat → Except String ListDropletsResponse)
    (rs : List ListDropletsResponse) :
    ∀ (fuel page : Nat) (acc : List BasicDropletInfo) (trace : List (Nat × Nat)),
      rs ≠ [] →
      (∀ i (h : i < rs.length), client 100 (page + i) = .ok (rs.get ⟨i, h⟩)) →
      (∀ i (h : i < rs.length),
        (rs.get ⟨i, h⟩).links.pages.next.isSome = decide (i + 1 ≠ rs.length)) →
      rs.length ≤ fuel →
      loadDropletsGo client fuel page acc trace =
        .ok (acc ++ (rs.flatMap (fun r => r.droplets)).map BasicDropletInfo.ofResponse,
             trace ++ (List.range' page rs.length).map (fun p => (100, p))) := by
  induction rs with
  | nil => intro _ _ _ _ hne; exact absurd rfl hne
  | cons r rs ih =>
      intro fuel page acc trace _ hclient hnext hfuel
      cases fuel with
      | zero => simp at hfuel
      | succ fuel =>
        have hr : client 100 page = .ok r := by
          simpa using hclient 0 (Nat.succ_pos _)
        simp only [loadDropletsGo, hr]
        cases rs with
        | nil =>
            have hlast : r.links.pages.next.isSome = false := by
              simpa using hnext 0 (Nat.succ_pos _)
            simp [hlast, List.range']
        | cons r2 rs2 =>
            have hhead : r.links.pages.next.isSome = true := by
              have := hnext 0 (Nat.succ_pos _)
              simpa using this
            have hclient2 : ∀ i (h : i < (r2 :: rs2).length),
                client 100 (page + 1 + i) = .ok ((r2 :: rs2).get ⟨i, h⟩) := by
              intro i h
              have h2 : i + 1 < (r :: r2 :: rs2).length := by
                simpa [Nat.succ_lt_succ_iff] using h
              have := hclient (i + 1) h2
              simpa [Nat.add_assoc, Nat.add_comm 1 i] using this
            have hnext2 : ∀ i (h : i < (r2 :: rs2).length),
                ((r2 :: rs2).get ⟨i, h⟩).links.pages.next.isSome =
                  decide (i + 1 ≠ (r2 :: rs2).length) := by
              intro i h
              have h2 : i + 1 < (r :: r2 :: rs2).length := by
                simpa [Nat.succ_lt_succ_iff] using h
              have := hnext (i + 1) h2
              simpa [Nat.succ_ne_succ] using this
            have hfuel2 : (r2 :: rs2).length ≤ fuel := by
              simp only [List.length_cons] at hfuel ⊢
              omega
            rw [if_pos hhead,
              ih fuel (page + 1) (acc ++ r.droplets.map BasicDropletInfo.ofResponse)
                (trace ++ [(100, page)]) (by simp) hclient2 hnext2 hfuel2]
            congr 1
            rw [Prod.mk.injEq]
            constructor
            · simp [List.flatMap_cons, List.map_append, List.append_assoc]
            · simp [List.range'_succ, List.append_assoc]

/--
Overwriting an existing entry of the limits association list makes the
subsequent lookup return the new value.
-/
theorem find_map_update (k : String) (v : MultiLimits) :
    ∀ l : List (String × MultiLimits),
      (l.find? (fun p => p.1 = k)).isSome = true →
      ((l.map (fun p => if p.1 = k then (k, v) else p)).find? (fun p => p.1 = k)) =
        some (k, v) := by
  intro l
  induction l with
  | nil => intro h; simp [List.find?] at h
  | cons p l ih =>
      intro h
      by_cases hp : p.1 = k
      · simp [List.find?, hp]
      · have h2 : (l.find? (fun q => q.1 = k)).isSome = true := by
          simpa [List.find?_cons, hp] using h
        simpa [List.find?_cons, hp] using ih h2

/-- The state-level form of find_map_update. -/
theorem lookupLimit_updateLimit (st : KeyManagerState) (k : String) (v w : MultiLimits)
    (h : st.lookupLimit k = some w) :
    (st.updateLimit k v).lookupLimit k = some v := by
  have hsome : (st.limits.find? (fun p => p.1 = k)).isSome = true := by
    unfold KeyManagerState.lookupLimit at h
    cases hf : st.limits.find? (fun p => p.1 = k) with
    | none => rw [hf] at h; cases h
    | some q => simp [hf]
  unfold KeyManagerState.lookupLimit KeyManagerState.updateLimit
  simp [find_map_update k v st.limits hsome]

/-- updateLimit only touches the limits map, never the error counter, pools or toggle. -/
theorem updateLimit_fields (st : KeyManagerState) (k : String) (v : MultiLimits) :
    (st.updateLimit k v).keyErrorCounter = st.keyErrorCounter ∧
      (st.updateLimit k v).keys = st.keys ∧
      (st.updateLimit k v).metricsEnabled = st.metricsEnabled := by
  exact ⟨rfl, rfl, rfl⟩

/-- estimate_remaining in closed form: the clamped refilled count minus the one permit reserved for the current call (in Nat, 0 - 1 = 0, so the if of the source collapses). -/
theorem RateLimiter.estimate_remaining_eq (s : RateLimiter) (t : Nat) :
    s.estimate_remaining t =
      min (s.remaining + s.refill (t - s.last_attempt_time)) s.limit - 1 := by
  simp only [RateLimiter.estimate_remaining]
  split <;> omega

/-! ## Claims -/

/--
C3: for every token and every tier, after any sequence of acquire calls
at arbitrary times, the stored remaining count satisfies
0 ≤ remaining ≤ capacity.  Quantifying over arbitrary tier settings
covers every token the key manager creates; arbitrary (not only
non-decreasing) call times are allowed because the source subtraction
saturates.
-/
theorem claim_C3_remaining_bounds (settings : List (Nat × Nat)) (t0 : Nat) (ts : List Nat) :
    ∀ l ∈ ((MultiLimits.new settings t0).acquireSeq ts).limits,
      0 ≤ l.remaining ∧ l.remaining ≤ l.limit := by
  intro l hl
  exact ⟨Nat.zero_le _,
    MultiLimits.acquireSeq_tiers_le ts _ (MultiLimits.new_remaining_le settings t0) l hl⟩

/-- Witness for C3 at the DigitalOcean tiers with two acquire calls. -/
theorem claim_C3_witness :
    0 ≤ (RateLimiter.mk 248 600001 250 60000).remaining ∧
      (RateLimiter.mk 248 600001 250 60000).remaining ≤
        (RateLimiter.mk 248 600001 250 60000).limit :=
  claim_C3_remaining_bounds [(250, 60000), (4500, 3600000)] 0 [600000, 600001]
    (RateLimiter.mk 248 600001 250 60000) (by decide)

/--
C4 counterexample: the claim "refill restores can_acquire as soon as
remaining + refill ≥ 1" is false: with the 250-per-minute tier fresh at
time 0 and fully drained (remaining = 0), at time 240 the refill is
exactly 1, so remaining + refill = 1, yet can_acquire is still false (the
code demands a unit of headroom beyond the permit being spent).  The
claim "acquire succeeds at remaining exactly capacity - 1" also fails at
capacity 2: with remaining = 1 = capacity - 1 and no elapsed time,
acquire fails.
-/
theorem claim_C4_counterexample :
    ((RateLimiter.new 250 60000 0).remaining +
        (RateLimiter.new 250 60000 0).refill
          (240 - (RateLimiter.new 250 60000 0).last_attempt_time) = 1) ∧
    ((RateLimiter.new 250 60000 0).can_acquire 240 = false) ∧
    ((RateLimiter.mk 1 0 2 1000).remaining = (RateLimiter.mk 1 0 2 1000).limit - 1 ∧
      ((RateLimiter.mk 1 0 2 1000).acquire 0).1 = false) := by
  decide

/--
C4 (amended): acquire at stored remaining exactly capacity - 1 succeeds
provided capacity ≥ 3 (for capacity ≤ 2 it fails); acquire at stored
remaining exactly 0 at the stored last-update time fails; and refill
makes can_acquire true exactly when the clamped refilled count
min(remaining + refill, capacity) reaches 2 — one whole unit beyond the
permit the current call would consume — not when remaining + refill ≥ 1.
-/
theorem claim_C4_boundaries :
    (∀ (cap interval t now : Nat), 3 ≤ cap →
      ((RateLimiter.mk (cap - 1) t cap interval).acquire now).1 = true) ∧
    (∀ (cap interval t : Nat), ((RateLimiter.mk 0 t cap interval).acquire t).1 = false) ∧
    (∀ (s : RateLimiter) (now : Nat),
      s.can_acquire now = true ↔
        2 ≤ min (s.remaining + s.refill (now - s.last_attempt_time)) s.limit) := by
  refine ⟨?_, ?_, ?_⟩
  · intro cap interval t now hcap
    have hne : (RateLimiter.mk (cap - 1) t cap interval).estimate_remaining now ≠ 0 := by
      rw [RateLimiter.estimate_remaining_eq]
      have h0 : 0 ≤ (RateLimiter.mk (cap - 1) t cap interval).refill (now - t) :=
        Nat.zero_le _
      simp only
      omega
    simp [RateLimiter.acquire, hne]
  · intro cap interval t
    have h0 : (RateLimiter.mk 0 t cap interval).estimate_remaining t = 0 := by
      rw [RateLimiter.estimate_remaining_eq]
      simp [RateLimiter.refill]
    simp [RateLimiter.acquire, h0]
  · intro s now
    rw [RateLimiter.can_acquire, RateLimiter.estimate_remaining_eq]
    simp only [decide_eq_true_eq, gt_iff_lt]
    omega

/-- Witness for C4 (amended) at the 250-per-minute tier: remaining 249 succeeds, remaining 0 fails, and a refill of 2 units (240 s of drain, then 480 s elapsed... in ms: refill 2 at dt 480) re-enables can_acquire. -/
theorem claim_C4_witness :
    ((RateLimiter.mk 249 0 250 60000).acquire 5).1 = true ∧
    ((RateLimiter.mk 0 7 250 60000).acquire 7).1 = false ∧
    (RateLimiter.mk 0 0 250 60000).can_acquire 480 = true :=
  ⟨claim_C4_boundaries.1 250 60000 0 5 (by decide),
   claim_C4_boundaries.2.1 250 60000 7,
   (claim_C4_boundaries.2.2 (RateLimiter.mk 0 0 250 60000) 480).mpr (by decide)⟩

/--
C9: the label reconciler is idempotent.  Each of the three exported
helpers keeps exactly the label tuples whose primary-key label value lies
in the valid set, so a second application with the same set removes
nothing further.
-/
theorem claim_C9_reconciler_idempotent (valid : List String) (vec : List LabelTuple) :
    remove_old_droplets valid (remove_old_droplets valid vec) =
      remove_old_droplets valid vec ∧
    remove_old_apps_for_gauge_metric valid (remove_old_apps_for_gauge_metric valid vec) =
      remove_old_apps_for_gauge_metric valid vec ∧
    remove_old_apps_for_counter_metric valid (remove_old_apps_for_counter_metric valid vec) =
      remove_old_apps_for_counter_metric valid vec :=
  ⟨removeOldSeries_idem _ _ _, removeOldSeries_idem _ _ _, removeOldSeries_idem _ _ _⟩

/--
C7: any two consecutive restart-count passes query windows [s1, e1] and
[s2, e2] with s2 > e1 (indeed s2 = e1 + 1).  The loop state
last_interval_end is advanced before the loader is invoked, so this holds
whether or not the earlier pass failed.
-/
theorem claim_C7_restart_windows_disjoint (times : List Int) (i : Nat)
    (h1 : i < (restartCountIntervals times).length)
    (h2 : i + 1 < (restartCountIntervals times).length) :
    ((restartCountIntervals times).get ⟨i, h1⟩).2 <
      ((restartCountIntervals times).get ⟨i + 1, h2⟩).1 := by
  have h := restartCountGo_chain times none i h1 h2
  unfold restartCountIntervals at h ⊢
  omega

/-- Witness for C7 at passes 0, 60, 120 (the S5 schedule): the second window starts after the first ends. -/
theorem claim_C7_witness :
    ((restartCountIntervals [0, 60, 120]).get ⟨0, by decide⟩).2 <
      ((restartCountIntervals [0, 60, 120]).get ⟨1, by decide⟩).1 :=
  claim_C7_restart_windows_disjoint [0, 60, 120] 0 (by decide) (by decide)

/--
C10: every token starts with remaining = 0 in both tiers and a
last-update time backdated 10 minutes (600000 ms) before startup, so the
initial per-tier budget (estimate_remaining at startup) is
min(capacity, capacity * 600000 / window) - 1: 249 for the 250-per-minute
tier and 749 — not 4500 — for the 4500-per-hour tier.
-/
theorem claim_C10_initial_budget (t0 : Nat) (h : 600000 ≤ t0) :
    ((create_key_limit (t0 - 600000)).limits.map (fun l => l.remaining) = [0, 0]) ∧
    ((create_key_limit (t0 - 600000)).limits.map (fun l => l.last_attempt_time) =
      [t0 - 600000, t0 - 600000]) ∧
    ((create_key_limit (t0 - 600000)).limits.map (fun l => l.estimate_remaining t0) =
      [249, 749]) ∧
    (249 = min 250 (250 * 600000 / 60000) - 1) ∧
    (749 = min 4500 (4500 * 600000 / 3600000) - 1) ∧
    (∀ (pools : List (KeyType × List String)) (me : Bool) (k : String) (lim : MultiLimits),
      (k, lim) ∈ (KeyManagerState.new pools me t0).limits →
        lim = create_key_limit (t0 - 600000)) := by
  have hdt : t0 - (t0 - 600000) = 600000 := Nat.sub_sub_self h
  refine ⟨rfl, rfl, ?_, by norm_num, by norm_num, ?_⟩
  · simp [create_key_limit, MultiLimits.new, RateLimiter.new,
      RateLimiter.estimate_remaining, RateLimiter.refill, hdt]
  · intro pools me k lim hmem
    simp only [KeyManagerState.new, List.mem_map] at hmem
    obtain ⟨k0, _, hk⟩ := hmem
    exact (congrArg Prod.snd hk).symm

/-- Witness for C10 at startup time exactly 600000 ms. -/
theorem claim_C10_witness :
    (create_key_limit (600000 - 600000)).limits.map
        (fun l => l.estimate_remaining 600000) = [249, 749] :=
  (claim_C10_initial_budget 600000 (by decide)).2.2.1

/--
C6 is a code bug: the status check of base_droplet_metrics_request
accepts 204 No Content, but the subsequent
response.json::<DropletDataResponse>() deserializes the empty 204 body
and fails (status and data are required fields and an empty body holds no
JSON document), so the request returns a decode error and the loader pass
aborts instead of continuing with an empty result set.  First conjunct:
the 204 path errors at the decode step, not the status step.  Second: a
genuinely rejected status (401) takes the status-error path.  Third: a
200 response whose body decodes yields the parsed result, showing the
decode step itself is modelled faithfully.
-/
theorem claim_C6_204_is_decode_error :
    (handleDropletMetricsResponse 204 none = .error "error decoding response body") ∧
    (handleDropletMetricsResponse 401 none =
      .error "Request failed with status code: 401") ∧
    (handleDropletMetricsResponse 200
        (some (Json.obj [("status", Json.str "success"),
          ("data", Json.obj [("result", Json.arr [])])])) =
      .ok { status := "success", data := { result := [] } }) :=
  ⟨rfl, rfl, rfl⟩

/-- An upstream serving a fixed list of pages: page n (1-based) is the n-th response. -/
def pagedClient (rs : List ListDropletsResponse) :
    Nat → Nat → Except String ListDropletsResponse :=
  fun _perPage page =>
    match rs.get? (page - 1) with
    | some r => .ok r
    | none => .error "unexpected page"

/--
C2: refresh pages with per_page = 100 from page 1, issuing one request
per page, stopping exactly at the first response whose links.pages.next
is absent, and stores the concatenation of the returned pages in order:
for an upstream serving rs with next present on every page but the last,
the loop issues exactly requests (100, 1) .. (100, rs.length) and stores
the in-order concatenation of all pages.
-/
theorem claim_C2_pagination (rs : List ListDropletsResponse) (hne : rs ≠ [])
    (hnext : ∀ i (h : i < rs.length),
      (rs.get ⟨i, h⟩).links.pages.next.isSome = decide (i + 1 ≠ rs.length)) :
    load_droplets (pagedClient rs) rs.length =
      .ok ((rs.flatMap (fun r => r.droplets)).map BasicDropletInfo.ofResponse,
           (List.range' 1 rs.length).map (fun p => (100, p))) := by
  have hclient : ∀ i (h : i < rs.length),
      pagedClient rs 100 (1 + i) = .ok (rs.get ⟨i, h⟩) := by
    intro i h
    have hi : (1 + i) - 1 = i := by omega
    simp [pagedClient, hi, List.getElem?_eq_getElem h]
  simpa [load_droplets] using
    loadDropletsGo_spec (pagedClient rs) rs rs.length 1 [] [] hne hclient hnext (le_refl _)

/-- The droplet of the first sample page. -/
def dropletA : DropletResponse :=
  DropletResponse.mk 1 "a" 1024 1 25 false "active"

/-- The droplet of the second sample page. -/
def dropletB : DropletResponse :=
  DropletResponse.mk 2 "b" 2048 2 50 false "active"

/-- A first page with one droplet and a next link. -/
def pageOne : ListDropletsResponse :=
  ListDropletsResponse.mk [dropletA] (Links.mk (Pages.mk none (some "page2") none none))

/-- A second page with one droplet and a next link. -/
def pageTwo : ListDropletsResponse :=
  ListDropletsResponse.mk [dropletB] (Links.mk (Pages.mk none (some "page3") none none))

/-- A final empty page with no next link. -/
def pageThree : ListDropletsResponse :=
  ListDropletsResponse.mk [] (Links.mk (Pages.mk none none none none))

/-- Witness for C2, the [P1, P2, empty] upstream: exactly three requests, stored snapshot concat(P1, P2). -/
theorem claim_C2_witness :
    load_droplets (pagedClient [pageOne, pageTwo, pageThree]) 3 =
      .ok ([BasicDropletInfo.ofResponse dropletA, BasicDropletInfo.ofResponse dropletB],
           [(100, 1), (100, 2), (100, 3)]) := by
  have h := claim_C2_pagination [pageOne, pageTwo, pageThree] (by decide) (by decide)
  simpa [pageOne, pageTwo, pageThree, List.range'] using h

/--
C8: the sample written by a last-value loader is the value of the point
with the maximum timestamp, parsed, and 0 when that string does not
parse: stated both for extract_last_value (droplet loaders, which flatten
all series of the response) and last_point_for_app_metrics (app loaders,
per series).  A parse failure degrades to 0 without failing the pass —
the extractors are total.
-/
theorem claim_C8_last_point (parse : String → Option ℚ) (resp : DropletDataResponse)
    (series : AppMetricsResponse) (p q : MetricPoint)
    (hp : p ∈ resp.data.result.flatMap (fun x => x.values))
    (hpmax : ∀ r ∈ resp.data.result.flatMap (fun x => x.values),
      r = p ∨ r.timestamp < p.timestamp)
    (hq : q ∈ series.values)
    (hqmax : ∀ r ∈ series.values, r = q ∨ r.timestamp < q.timestamp) :
    (extract_last_value parse resp = (parse p.value).getD 0) ∧
    (parse p.value = none → extract_last_value parse resp = 0) ∧
    (last_point_for_app_metrics parse series = (parse q.value).getD 0) ∧
    (parse q.value = none → last_point_for_app_metrics parse series = 0) := by
  have h1 : maxByKeyLast (fun r => r.timestamp)
      (resp.data.result.flatMap (fun x => x.values)) = some p :=
    maxByKeyLast_of_strict _ _ p hp hpmax
  have h2 : maxByKeyLast (fun r => r.timestamp) series.values = some q :=
    maxByKeyLast_of_strict _ _ q hq hqmax
  refine ⟨?_, ?_, ?_, ?_⟩
  · simp [extract_last_value, h1]
  · intro hn
    simp [extract_last_value, h1, hn]
  · simp [last_point_for_app_metrics, h2]
  · intro hn
    simp [last_point_for_app_metrics, h2, hn]

/-- A float parser sample for the witness: only the two strings of the S1 scenario parse. -/
def parseSample (s : String) : Option ℚ :=
  if s = "95.5" then some (191 / 2) else if s = "90.0" then some 90 else none

/-- The S1 droplet CPU response: two points, the later one with value "90.0". -/
def sampleDropletResponse : DropletDataResponse :=
  DropletDataResponse.mk "success"
    (DropletDataResult.mk
      [DropletMetricsResponse.mk
        (DropletMetricMetaInfo.mk "42" (some "idle") none none none)
        [MetricPoint.mk 1000 "95.5", MetricPoint.mk 1060 "90.0"]])

/-- An app series whose single (hence last) point does not parse as a float. -/
def sampleAppSeries : AppMetricsResponse :=
  AppMetricsResponse.mk (AppMetricMetaInfo.mk "web" "web-0" none "u1")
    [MetricPoint.mk 5 "oops"]

/-- Witness for C8: the last point (timestamp 1060) is written, and the unparsable app point writes 0. -/
theorem claim_C8_witness :
    extract_last_value parseSample sampleDropletResponse = 90 ∧
    last_point_for_app_metrics parseSample sampleAppSeries = 0 :=
  ⟨(claim_C8_last_point parseSample sampleDropletResponse sampleAppSeries
      { timestamp := 1060, value := "90.0" } { timestamp := 5, value := "oops" }
      (by decide) (by decide) (by decide) (by decide)).1.trans (by rfl),
   (claim_C8_last_point parseSample sampleDropletResponse sampleAppSeries
      { timestamp := 1060, value := "90.0" } { timestamp := 5, value := "oops" }
      (by decide) (by decide) (by decide) (by decide)).2.2.2 rfl⟩

/--
The S3 scenario: the droplet-cpu pool holds one token "cpu" exhausted at
the call time 600000 (a limit state freshly created at 600000 has
estimate 0 in every tier), the default pool holds one fresh token
"default" created at startup (backdated limit creation time 0), limits
self-metrics enabled, no errors recorded yet.
-/
def fallbackScenario : KeyManagerState :=
  { keys := [(KeyType.Default, ["default"]), (KeyType.DropletCpu, ["cpu"])]
    limits := [("default", create_key_limit 0), ("cpu", create_key_limit 600000)]
    metricsEnabled := true
    keyErrorCounter := [] }

/--
C1 is a code bug: on the path where the requested purpose's pool exists
but has no token within budget, acquire_key computes key_result by the
recursive call into Default WITHOUT the early return the pool-missing
branch has (the source comments "return is important here to prevent
double acquiring" on that other branch), so after the inner frame has
already acquired the default token's rate state, the outer frame acquires
it again.  Evaluation at the S3 input: the call returns the default
token, but the default token's tiers hold [248, 748] — the state of TWO
consecutive acquires at 600000 — where a single acquire leaves [249, 749].
-/
theorem claim_C1_fallback_double_acquire :
    ((fallbackScenario.acquireKey 2 600000 KeyType.DropletCpu).1 = Except.ok "default") ∧
    (((fallbackScenario.acquireKey 2 600000 KeyType.DropletCpu).2.lookupLimit "default").map
        (fun m => m.limits.map (fun l => l.remaining)) = some [248, 748]) ∧
    (((create_key_limit 0).acquire 600000).2.limits.map (fun l => l.remaining) =
      [249, 749]) ∧
    ((((create_key_limit 0).acquire 600000).2.acquire 600000).2.limits.map
        (fun l => l.remaining) = [248, 748]) :=
  ⟨rfl, rfl, rfl, rfl⟩

/--
C5 counterexample: at the S3 input the call does return the default
token, but droxporter_keys_errors{cpu, limit exceeded} stays at 0 (the
error-path record_fail is only reached when key_result is an error, and
the successful fallback yields Ok), and the default token's rate state is
NOT the one-acquire state — two permits were consumed — so the claimed
"increments keys_errors by exactly 1 and consumes one permit" is false.
-/
theorem claim_C5_counterexample :
    ((fallbackScenario.acquireKey 2 600000 KeyType.DropletCpu).1 = Except.ok "default") ∧
    ((fallbackScenario.acquireKey 2 600000 KeyType.DropletCpu).2.errorCount
        ("cpu", "limit exceeded") = 0) ∧
    ¬((fallbackScenario.acquireKey 2 600000 KeyType.DropletCpu).2.lookupLimit "default" =
        some ((create_key_limit 0).acquire 600000).2) :=
  ⟨rfl, rfl, by decide⟩

/--
C5 (amended): when the requested non-default purpose's pool exists but
has no token within budget and the default pool yields a token, acquire
returns that default token, leaves the keys_errors counter unchanged, and
consumes TWO permits from the default token's rate state (the inner
Default frame acquires once and the outer frame acquires again).
-/
theorem claim_C5_fallback_behavior (st : KeyManagerState) (t : Nat) (kt : KeyType)
    (ks dks : List String) (dk : String) (dl : MultiLimits)
    (hkt : kt ≠ KeyType.Default)
    (hpool : st.lookupKeys kt = some ks)
    (hexhausted : selectKey st ks t = none)
    (hdpool : st.lookupKeys KeyType.Default = some dks)
    (hdsel : selectKey st dks t = some dk)
    (hdlim : st.lookupLimit dk = some dl) :
    ((st.acquireKey 2 t kt).1 = Except.ok dk) ∧
    ((st.acquireKey 2 t kt).2.keyErrorCounter = st.keyErrorCounter) ∧
    ((st.acquireKey 2 t kt).2.lookupLimit dk = some (((dl.acquire t).2).acquire t).2) := by
  have hlk : (st.updateLimit dk (dl.acquire t).2).lookupLimit dk = some (dl.acquire t).2 :=
    lookupLimit_updateLimit st dk (dl.acquire t).2 dl hdlim
  have houter : st.acquireKey 2 t kt =
      (.ok dk, (st.updateLimit dk (dl.acquire t).2).updateLimit dk
        (((dl.acquire t).2).acquire t).2) := by
    simp [KeyManagerState.acquireKey, hpool, hexhausted, hkt, hdpool, hdsel, hdlim,
      KeyManagerState.acquireTail, hlk]
  refine ⟨by rw [houter], by rw [houter]; rfl, ?_⟩
  rw [houter]
  exact lookupLimit_updateLimit _ dk _ (dl.acquire t).2 hlk

/-- Witness for C5 (amended) at the S3 input. -/
theorem claim_C5_witness :
    ((fallbackScenario.acquireKey 2 600000 KeyType.DropletCpu).1 = Except.ok "default") ∧
    ((fallbackScenario.acquireKey 2 600000 KeyType.DropletCpu).2.keyErrorCounter =
      fallbackScenario.keyErrorCounter) ∧
    ((fallbackScenario.acquireKey 2 600000 KeyType.DropletCpu).2.lookupLimit "default" =
      some ((((create_key_limit 0).acquire 600000).2).acquire 600000).2) :=
  claim_C5_fallback_behavior fallbackScenario 600000 KeyType.DropletCpu
    ["cpu"] ["default"] "default" (create_key_limit 0)
    (by decide) rfl (by decide) rfl (by decide) rfl

end Droxporter
